import Mathlib

/-
Shallow embedding of the backtesting core of the `analyzer` repository:
`src/trading_system.py` (Portfolio ledger, TradingSystem driver, statistics
reducer) and `src/strategy_impl.py` (MACrossStrategy, MomentumStrategy).

Modelling conventions:
* Python floats are modelled as exact rationals (ℚ).  Float rounding,
  overflow and NaN propagation are not modelled, except where a claim
  needs them: a missing/NaN close price in the input series is modelled
  as `Option ℚ` = `none`, and a Python exception (ZeroDivisionError on
  dividing a float by 0, ValueError on `int(nan)`) is modelled by the
  `Except.error` constructor of the operation's return type.
* Python `int(x)` truncates toward zero; `pyInt` below does the same.
* Dates are modelled as integers; `Timestamp.date()` in the driver is
  modelled as the identity on those integers.
* The `datetime.now().date()` wall-clock read in `Portfolio.__init__`
  (line 39 of trading_system.py) is modelled by passing the ambient
  clock date `today` explicitly to the constructor.
* The success messages of buy/sell are f-strings interpolating shares,
  price and tax; no claim reads their contents, so they are modelled by
  the constant prefixes "买入" / "卖出".  Failure messages are the exact
  string constants of the source.
-/

/-- Fee schedule: the `tax_config` dict of `Portfolio.__init__`. -/
structure TaxConfig where
  buyCommission : ℚ
  buyTransferFee : ℚ
  sellCommission : ℚ
  sellStampDuty : ℚ
  sellTransferFee : ℚ
  minCommission : ℚ
deriving DecidableEq

/-- The default `tax_config` of `Portfolio.__init__` (lines 56-67). -/
def defaultTaxConfig : TaxConfig :=
  { buyCommission := 3/10000
    buyTransferFee := 2/100000
    sellCommission := 3/10000
    sellStampDuty := 1/1000
    sellTransferFee := 2/100000
    minCommission := 5 }

/-- Python `int(x)`: truncation toward zero. -/
def pyInt (q : ℚ) : ℤ := if 0 ≤ q then ⌊q⌋ else -⌊-q⌋

/-- Python `max(a, b)`: the second argument wins only when strictly
greater (CPython keeps the first argument on ties). -/
def pyMax (a b : ℚ) : ℚ := if a < b then b else a

/-- Python `min(a, b)`: the second argument wins only when strictly
smaller. -/
def pyMin (a b : ℚ) : ℚ := if b < a then b else a

/-- The `操作` (action) field of a transaction record. -/
inductive TxnAction where
  | init
  | buy
  | sell
  | hold
deriving DecidableEq

/-- One transaction record (the dicts appended to `self.transactions`).
The four record shapes carry different key sets ('成本'/'总成本' on init
and buy, '收入'/'净收入' on sell, '收入/成本' on hold); keys absent from a
given dict are `none`. -/
structure Txn where
  date : ℤ
  act : TxnAction
  price : ℚ
  shares : ℚ
  cost : Option ℚ
  income : Option ℚ
  incomeOrCost : Option ℚ
  tax : ℚ
  totalCost : Option ℚ
  netIncome : Option ℚ
  cash : ℚ
  pos : ℚ
  marketValue : ℚ
  totalAssets : ℚ
  cumInvestment : ℚ
  cumPnl : ℚ
  pnlRate : ℚ
deriving DecidableEq

/-- The synthetic `初始化` record (lines 38-53). -/
def Txn.mkInit (d : ℤ) (cash : ℚ) : Txn :=
  { date := d, act := TxnAction.init, price := 0, shares := 0
    cost := some 0, income := none, incomeOrCost := none, tax := 0
    totalCost := some 0, netIncome := none
    cash := cash, pos := 0, marketValue := 0, totalAssets := cash
    cumInvestment := 0, cumPnl := 0, pnlRate := 0 }

/-- A `买入` record (lines 129-144). -/
def Txn.mkBuy (d : ℤ) (price shares cost tax totalCost cash pos mv ta inv pnl rate : ℚ) : Txn :=
  { date := d, act := TxnAction.buy, price := price, shares := shares
    cost := some cost, income := none, incomeOrCost := none, tax := tax
    totalCost := some totalCost, netIncome := none
    cash := cash, pos := pos, marketValue := mv, totalAssets := ta
    cumInvestment := inv, cumPnl := pnl, pnlRate := rate }

/-- A `卖出` record (lines 179-194). -/
def Txn.mkSell (d : ℤ) (price shares income tax net cash pos mv ta inv pnl rate : ℚ) : Txn :=
  { date := d, act := TxnAction.sell, price := price, shares := shares
    cost := none, income := some income, incomeOrCost := none, tax := tax
    totalCost := none, netIncome := some net
    cash := cash, pos := pos, marketValue := mv, totalAssets := ta
    cumInvestment := inv, cumPnl := pnl, pnlRate := rate }

/-- A `持有` record (lines 211-225). -/
def Txn.mkHold (d : ℤ) (price cash pos mv ta inv pnl rate : ℚ) : Txn :=
  { date := d, act := TxnAction.hold, price := price, shares := 0
    cost := none, income := none, incomeOrCost := some 0, tax := 0
    totalCost := none, netIncome := none
    cash := cash, pos := pos, marketValue := mv, totalAssets := ta
    cumInvestment := inv, cumPnl := pnl, pnlRate := rate }

set_option synthInstance.maxHeartbeats 1000000

/-- The mutable state of `Portfolio` (lines 23-35 together with the
running totals). -/
structure Portfolio where
  initialCash : ℚ
  cash : ℚ
  position : ℚ
  transactions : List Txn
  initialBuy : Bool
  totalInvestment : ℚ
  totalBuyCost : ℚ
  totalBuyTax : ℚ
  totalSellIncome : ℚ
  totalSellTax : ℚ
  taxConfig : TaxConfig
deriving DecidableEq

/-- `Portfolio.__init__`: fresh state plus the synthetic init record.
`today` is the ambient wall-clock date read by `datetime.now().date()`. -/
def mkPortfolio (today : ℤ) (initialCash : ℚ) (cfg : TaxConfig) : Portfolio :=
  { initialCash := initialCash
    cash := initialCash
    position := 0
    transactions := [Txn.mkInit today initialCash]
    initialBuy := true
    totalInvestment := 0
    totalBuyCost := 0
    totalBuyTax := 0
    totalSellIncome := 0
    totalSellTax := 0
    taxConfig := cfg }

/-- `Portfolio.calculate_buy_tax` (lines 69-76). -/
def TaxConfig.buyTax (cfg : TaxConfig) (price shares : ℚ) : ℚ :=
  let amount := price * shares
  let commission := pyMax (amount * cfg.buyCommission) cfg.minCommission
  let transferFee := amount * cfg.buyTransferFee
  commission + transferFee

/-- `Portfolio.calculate_sell_tax` (lines 78-86). -/
def TaxConfig.sellTax (cfg : TaxConfig) (price shares : ℚ) : ℚ :=
  let amount := price * shares
  let commission := pyMax (amount * cfg.sellCommission) cfg.minCommission
  let stampDuty := amount * cfg.sellStampDuty
  let transferFee := amount * cfg.sellTransferFee
  commission + stampDuty + transferFee

/-- The tail of `Portfolio.buy` (lines 114-146): debit cash, credit the
position, update the running totals and append the 买入 record. -/
def Portfolio.buyCommit (p : Portfolio) (d : ℤ) (price shares : ℚ) :
    Except String (Bool × String × Portfolio) :=
  let cost := price * shares
  let tax := p.taxConfig.buyTax price shares
  let totalCost := cost + tax
  let cash' := p.cash - totalCost
  let pos' := p.position + shares
  let inv' := p.totalInvestment + totalCost
  let curVal := price * pos'
  let curProfit := curVal - inv'
  let rate := if 0 < inv' then curProfit / inv' * 100 else 0
  Except.ok (true, "买入",
    { p with
      cash := cash'
      position := pos'
      totalBuyCost := p.totalBuyCost + cost
      totalBuyTax := p.totalBuyTax + tax
      totalInvestment := inv'
      transactions := p.transactions ++
        [Txn.mkBuy d price shares cost tax totalCost cash' pos' curVal
          (cash' + curVal) inv' curProfit rate] })

/-- `Portfolio.buy` lines 100-113: cost/tax computation and the
insufficient-funds recomputation.  The division by
`price * (1 + commission + transfer)` on line 106 raises
ZeroDivisionError in Python when that product is zero. -/
def Portfolio.buyExec (p : Portfolio) (d : ℤ) (price shares : ℚ) :
    Except String (Bool × String × Portfolio) :=
  let cost := price * shares
  let tax := p.taxConfig.buyTax price shares
  let totalCost := cost + tax
  if totalCost > p.cash then
    if price * (1 + p.taxConfig.buyCommission + p.taxConfig.buyTransferFee) = 0 then
      Except.error "ZeroDivisionError"
    else
      let maxSharesWithTax : ℤ :=
        pyInt (p.cash /
          (price * (1 + p.taxConfig.buyCommission + p.taxConfig.buyTransferFee)) / 100) * 100
      if maxSharesWithTax ≤ 0 then Except.ok (false, "资金不足，无法买入", p)
      else Portfolio.buyCommit p d price (maxSharesWithTax : ℚ)
  else Portfolio.buyCommit p d price shares

/-- `Portfolio.buy` (lines 88-146).  The establishing branch (lines
91-98) divides by `price` (ZeroDivisionError at price = 0), sizes the
lot to `int(cash / price / 100) * 100` ignoring the requested shares,
and clears the `initial_buy` flag as soon as that sizing is positive. -/
def Portfolio.buy (p : Portfolio) (d : ℤ) (price shares : ℚ) :
    Except String (Bool × String × Portfolio) :=
  if p.initialBuy then
    if price = 0 then Except.error "ZeroDivisionError"
    else
      let maxShares : ℤ := pyInt (p.cash / price / 100) * 100
      if 0 < maxShares then
        Portfolio.buyExec { p with initialBuy := false } d price (maxShares : ℚ)
      else Except.ok (false, "初始资金不足，无法建仓", p)
  else Portfolio.buyExec p d price shares

/-- `Portfolio.sell` (lines 148-196).  No division by a caller-supplied
quantity occurs, so the operation is total. -/
def Portfolio.sell (p : Portfolio) (d : ℤ) (price shares0 : ℚ) :
    Bool × String × Portfolio :=
  let shares := if shares0 > p.position then p.position else shares0
  if shares ≤ 0 then (false, "持仓不足，无法卖出", p)
  else
    let income := price * shares
    let tax := p.taxConfig.sellTax price shares
    let net := income - tax
    let cash' := p.cash + net
    let pos' := p.position - shares
    let tsi := p.totalSellIncome + income
    let tst := p.totalSellTax + tax
    let inv0 := p.totalInvestment - net
    let inv' := if inv0 < 0 then 0 else inv0
    let curVal := price * pos'
    let curProfit := curVal - inv' + tsi - p.totalBuyCost
    let rate := if 0 < p.totalBuyCost then curProfit / p.totalBuyCost * 100 else 0
    (true, "卖出",
      { p with
        cash := cash'
        position := pos'
        totalSellIncome := tsi
        totalSellTax := tst
        totalInvestment := inv'
        transactions := p.transactions ++
          [Txn.mkSell d price shares income tax net cash' pos' curVal
            (cash' + curVal) inv' curProfit rate] })

/-- `Portfolio.update` (lines 198-225): mark-to-market; appends a 持有
record unless the last record already carries the same date. -/
def Portfolio.update (p : Portfolio) (d : ℤ) (price : ℚ) : Portfolio :=
  let needAppend : Bool :=
    match p.transactions.getLast? with
    | none => true
    | some t => decide (t.date ≠ d)
  if needAppend then
    let curVal := price * p.position
    let curProfit := if 0 < p.position then curVal - p.totalInvestment else 0
    let rate :=
      if 0 < p.position then
        if 0 < p.totalInvestment then (curVal - p.totalInvestment) / p.totalInvestment * 100
        else 0
      else 0
    { p with transactions := p.transactions ++
        [Txn.mkHold d price p.cash p.position curVal (p.cash + curVal)
          p.totalInvestment curProfit rate] }
  else p

/-- The price series as the strategies and the driver see it: an ordered
frame with a `日期` column, a `收盘` column (a missing/NaN close is
`none`), and the three indicator columns that `generate_signals` writes
into the frame in place (`none` = column absent).  The alternative
`收盘价` column name probed on strategy_impl.py lines 16-17 and 59-60 is
not modelled: the driver always supplies `收盘`. -/
structure DataF where
  date : List ℤ
  close : List (Option ℚ)
  shortMa : Option (List (Option ℚ))
  longMa : Option (List (Option ℚ))
  momentum : Option (List (Option ℚ))
deriving DecidableEq

/-- pandas `Series.rolling(window=w).mean()` over the close column: the
first `w - 1` entries and any window containing a NaN yield NaN.
pandas rejects `w = 0` (callers must keep `1 ≤ w`). -/
def rollingMean (w : ℕ) (xs : List (Option ℚ)) : List (Option ℚ) :=
  (List.range xs.length).map (fun i =>
    if i + 1 < w then none
    else
      let win := (xs.drop (i + 1 - w)).take w
      if win.all (fun o => o.isSome) then
        some ((win.foldl (fun a o => a + o.getD 0) 0) / (w : ℚ))
      else none)

/-- pandas `Series.pct_change(periods=n)`: `close[i] / close[i-n] - 1`,
NaN for the first `n` entries or when either operand is NaN.  (pandas'
default forward-fill of NaNs before differencing, and the ±inf it
produces on a zero denominator, are not modelled; no claim touches
either path.) -/
def pctChange (n : ℕ) (xs : List (Option ℚ)) : List (Option ℚ) :=
  (List.range xs.length).map (fun i =>
    if i < n then none
    else
      match (xs.get? i).join, (xs.get? (i - n)).join with
      | some a, some b => some (a / b - 1)
      | _, _ => none)

/-- `.iloc[i]` on an indicator column, including Python's negative
indexing from the end (reachable in the source only for window 0). -/
def pyIdx (l : List (Option ℚ)) (i : ℤ) : Option ℚ :=
  if 0 ≤ i then (l.get? i.toNat).join
  else (l.get? (l.length - (-i).toNat)).join

/-- Python comparison `a <= b` where either side may be NaN (false). -/
def optLE (a b : Option ℚ) : Bool :=
  match a, b with
  | some x, some y => decide (x ≤ y)
  | _, _ => false

/-- Python comparison `a < b` where either side may be NaN (false). -/
def optLT (a b : Option ℚ) : Bool :=
  match a, b with
  | some x, some y => decide (x < y)
  | _, _ => false

/-- Python comparison `a > b` where either side may be NaN (false). -/
def optGT (a b : Option ℚ) : Bool :=
  match a, b with
  | some x, some y => decide (y < x)
  | _, _ => false

/-- Python comparison `a >= b` where either side may be NaN (false). -/
def optGE (a b : Option ℚ) : Bool :=
  match a, b with
  | some x, some y => decide (y ≤ x)
  | _, _ => false

/-- Python comparison `a > b` against a non-NaN threshold. -/
def optGTq (a : Option ℚ) (t : ℚ) : Bool :=
  match a with
  | some x => decide (t < x)
  | none => false

/-- Python comparison `a < b` against a non-NaN threshold. -/
def optLTq (a : Option ℚ) (t : ℚ) : Bool :=
  match a with
  | some x => decide (x < t)
  | none => false

/-- `MACrossStrategy.generate_signals` (strategy_impl.py lines 11-42).
Returns the signal array together with the frame as left behind by the
call: the method assigns the `short_ma` and `long_ma` columns into the
input frame before scanning for crossovers. -/
def maCrossSignals (shortW longW : ℕ) (buyShares : ℚ) (d : DataF) :
    List ℚ × DataF :=
  let n := d.close.length
  let sm := rollingMean shortW d.close
  let lm := rollingMean longW d.close
  let d' := { d with shortMa := some sm, longMa := some lm }
  let res := (List.range' longW (n - longW)).foldl
    (fun (acc : List ℚ × ℚ) (i : ℕ) =>
      let signals := acc.1
      let position := acc.2
      if optLE (pyIdx sm ((i : ℤ) - 1)) (pyIdx lm ((i : ℤ) - 1))
          && optGT (pyIdx sm (i : ℤ)) (pyIdx lm (i : ℤ))
          && decide (position = 0) then
        (signals.set i buyShares, position + buyShares)
      else if optGE (pyIdx sm ((i : ℤ) - 1)) (pyIdx lm ((i : ℤ) - 1))
          && optLT (pyIdx sm (i : ℤ)) (pyIdx lm (i : ℤ))
          && decide (0 < position) then
        (signals.set i (-position), 0)
      else (signals, position))
    (List.replicate n 0, 0)
  (res.1, d')

/-- `MomentumStrategy.generate_signals` (strategy_impl.py lines 54-80).
Returns the signal array together with the frame as left behind by the
call: the method assigns the `momentum` column into the input frame. -/
def momentumSignals (window : ℕ) (threshold buyShares : ℚ) (d : DataF) :
    List ℚ × DataF :=
  let n := d.close.length
  let mom := pctChange window d.close
  let d' := { d with momentum := some mom }
  let res := (List.range' (window + 1) (n - (window + 1))).foldl
    (fun (acc : List ℚ × ℚ) (i : ℕ) =>
      let signals := acc.1
      let position := acc.2
      if optGTq (pyIdx mom (i : ℤ)) threshold && decide (position = 0) then
        (signals.set i buyShares, position + buyShares)
      else if optLTq (pyIdx mom (i : ℤ)) (-threshold) && decide (0 < position) then
        (signals.set i (-position), 0)
      else (signals, position))
    (List.replicate n 0, 0)
  (res.1, d')

/-- The closed strategy variants of strategy_impl.py with their
constructor parameters. -/
inductive Strat where
  | maCross (shortW longW : ℕ) (buyShares : ℚ)
  | mom (window : ℕ) (threshold buyShares : ℚ)
deriving DecidableEq

/-- Dispatch of the abstract `generate_signals`. -/
def Strat.generateSignals : Strat → DataF → List ℚ × DataF
  | .maCross s l b, d => maCrossSignals s l b d
  | .mom w t b, d => momentumSignals w t b d

/-- `TradingSystem.__init__` state (lines 305-308). -/
structure TradingSystem where
  strategy : Strat
  portfolio : Portfolio
deriving DecidableEq

/-- `TradingSystem.__init__`; `today` is the wall-clock date consumed by
the Portfolio constructor's init record. -/
def mkTradingSystem (today : ℤ) (strat : Strat) (initialCash : ℚ)
    (cfg : TaxConfig) : TradingSystem :=
  { strategy := strat, portfolio := mkPortfolio today initialCash cfg }

/-- One bar of the signal loop of `run_backtest` (lines 327-338). -/
def stepBar (p : Portfolio) (d : ℤ) (price signal : ℚ) :
    Except String Portfolio :=
  if 0 < signal then
    match p.buy d price signal with
    | Except.error e => Except.error e
    | Except.ok r => Except.ok r.2.2
  else if signal < 0 then Except.ok (p.sell d price (abs signal)).2.2
  else Except.ok (p.update d price)

/-- `TradingSystem.run_backtest` (lines 310-340).  Returns the mutated
system together with the transaction log it returns.
Exception modelling: an empty series raises IndexError at
`data.iloc[0]`; when every close is NaN, `first_valid_idx` stays 0 and
the establishing buy raises ValueError at `int(nan)`.  A NaN close on a
bar after establishment does not raise in Python — it propagates NaN
through the ledger arithmetic into the appended record; that
contamination is not representable over ℚ and is modelled as an explicit
error (no claim in this development exercises that path). -/
def TradingSystem.runBacktest (ts : TradingSystem) (data : DataF) :
    Except String (TradingSystem × List Txn) :=
  let sigres := ts.strategy.generateSignals data
  let signals := sigres.1
  let data' := sigres.2
  let n := data'.close.length
  let firstValid :=
    match (List.range n).find? (fun i => ((data'.close.get? i).join).isSome) with
    | some i => i
    | none => 0
  match data'.date.get? firstValid, data'.close.get? firstValid with
  | some d0, some c0 =>
    match c0 with
    | none => Except.error "ValueError"
    | some price0 =>
      match ts.portfolio.buy d0 price0 100 with
      | Except.error e => Except.error e
      | Except.ok r0 =>
        let looped := (List.range' (firstValid + 1) (n - (firstValid + 1))).foldlM
          (fun (p : Portfolio) i =>
            match data'.date.get? i, data'.close.get? i with
            | some di, some (some pi) => stepBar p di pi (signals.getD i 0)
            | some _, some none => Except.error "NaN close after establishment"
            | _, _ => Except.error "IndexError")
          r0.2.2
        match looped with
        | Except.error e => Except.error e
        | Except.ok pF => Except.ok ({ ts with portfolio := pF }, pF.transactions)
  | _, _ => Except.error "IndexError"

/-- An open FIFO lot: the dicts held in `buy_records`
(trading_system.py lines 258-261). -/
structure BuyRec where
  price : ℚ
  shares : ℚ
deriving DecidableEq

/-- The inner while loop of the FIFO matcher (lines 267-278): consume
`remaining` sold shares from the front of the lot queue, returning the
realized profit of this sell and the surviving queue. -/
def fifoConsume (sellPrice remaining : ℚ) : List BuyRec → ℚ × List BuyRec
  | [] => (0, [])
  | b :: rest =>
    if remaining ≤ 0 then (0, b :: rest)
    else if b.shares ≤ remaining then
      let r := fifoConsume sellPrice (remaining - b.shares) rest
      ((sellPrice - b.price) * b.shares + r.1, r.2)
    else ((sellPrice - b.price) * remaining,
          { b with shares := b.shares - remaining } :: rest)

/-- The per-trade P&L scan of `get_statistics` (lines 251-281): fold the
log, pushing a lot per 买入 row and FIFO-matching each 卖出 row (a sell
with an empty queue is skipped).  Returns
(max single-trade profit, max single-trade loss, surviving lot queue). -/
def tradeProfits (txns : List Txn) : ℚ × ℚ × List BuyRec :=
  txns.foldl
    (fun (acc : ℚ × ℚ × List BuyRec) t =>
      match t.act with
      | TxnAction.buy =>
        (acc.1, acc.2.1, acc.2.2 ++ [{ price := t.price, shares := t.shares }])
      | TxnAction.sell =>
        if acc.2.2.isEmpty then acc
        else
          let r := fifoConsume t.price t.shares acc.2.2
          (pyMax acc.1 r.1, (pyMin acc.2.1 r.1, r.2))
      | _ => acc)
    (0, 0, [])

/-- The summary report returned by `get_statistics` (lines 284-302). -/
structure Stats where
  initialAssets : ℚ
  finalAssets : ℚ
  returnRate : ℚ
  buyCount : ℕ
  sellCount : ℕ
  totalTrades : ℕ
  totalTax : ℚ
  maxAsset : ℚ
  minAsset : ℚ
  curProfit : ℚ
  profitRate : ℚ
  totalBuyCost : ℚ
  totalSellIncome : ℚ
  totalBuyTax : ℚ
  totalSellTax : ℚ
  maxProfitSingleTrade : ℚ
  maxLossSingleTrade : ℚ
deriving DecidableEq

/-- `Portfolio.get_statistics` (lines 231-302).  `df.iloc[-1]` raises
IndexError on an empty log (never the case for a constructed
Portfolio), and the 收益率 division raises ZeroDivisionError when
`initial_cash` is 0. -/
def Portfolio.getStatistics (p : Portfolio) : Except String Stats :=
  match p.transactions.getLast? with
  | none => Except.error "IndexError"
  | some last =>
    let buyCount := p.transactions.countP (fun t => decide (t.act = TxnAction.buy))
    let sellCount := p.transactions.countP (fun t => decide (t.act = TxnAction.sell))
    let totalTax := (p.transactions.map (fun t => t.tax)).sum
    let assets := p.transactions.map (fun t => t.totalAssets)
    let profits := tradeProfits p.transactions
    if p.initialCash = 0 then Except.error "ZeroDivisionError"
    else Except.ok
      { initialAssets := p.initialCash
        finalAssets := last.totalAssets
        returnRate := (last.totalAssets - p.initialCash) / p.initialCash * 100
        buyCount := buyCount
        sellCount := sellCount
        totalTrades := buyCount + sellCount
        totalTax := totalTax
        maxAsset := assets.foldl pyMax (assets.headD 0)
        minAsset := assets.foldl pyMin (assets.headD 0)
        curProfit := last.cumPnl
        profitRate := last.pnlRate
        totalBuyCost := p.totalBuyCost
        totalSellIncome := p.totalSellIncome
        totalBuyTax := p.totalBuyTax
        totalSellTax := p.totalSellTax
        maxProfitSingleTrade := profits.1
        maxLossSingleTrade := profits.2.1 }

/-- `TradingSystem.get_statistics` (lines 342-344). -/
def TradingSystem.getStatistics (ts : TradingSystem) : Except String Stats :=
  ts.portfolio.getStatistics

/- Concrete fixtures shared by several theorems below. -/

/-- A one-bar frame with date 5 and close 10.00. -/
def oneBarFrame : DataF :=
  { date := [5], close := [some 10], shortMa := none, longMa := none, momentum := none }

/-- A one-bar frame whose only close is missing (NaN). -/
def allNaNFrame : DataF :=
  { date := [0], close := [none], shortMa := none, longMa := none, momentum := none }

/-- The transaction log of spec Scenario D: trade records buy 100@10,
buy 100@12, sell 150@15 (non-FIFO fields are immaterial to the lot
matcher and are left at placeholder values). -/
def fifoScenarioLog : List Txn :=
  [Txn.mkInit 0 10000,
   Txn.mkBuy 1 10 100 1000 5 1005 0 100 0 0 0 0 0,
   Txn.mkBuy 2 12 100 1200 5 1205 0 200 0 0 0 0 0,
   Txn.mkSell 3 15 150 2250 10 2240 0 50 0 0 0 0 0]

/-- A portfolio carrying `fifoScenarioLog`, for running the statistics
reducer end to end. -/
def fifoScenarioPortfolio : Portfolio :=
  { initialCash := 10000, cash := 0, position := 50
    transactions := fifoScenarioLog, initialBuy := false
    totalInvestment := 0, totalBuyCost := 0, totalBuyTax := 0
    totalSellIncome := 0, totalSellTax := 0, taxConfig := defaultTaxConfig }

set_option maxRecDepth 4000

/-- Claim C2: the establishing buy with cash 100000 at price 10.00 under
the default fee schedule first sizes the lot to 10000 shares, finds
cost + tax = 100032 exceeds cash, shrinks to 9900 shares via the
lot-aligned recomputation, and appends a buy record with cost 99000,
tax 31.68, total debit 99031.68 and cash_after 968.32 (exact over ℚ). -/
theorem c2_scenario_a_establishing_buy :
    pyInt ((mkPortfolio 0 100000 defaultTaxConfig).cash / 10 / 100) * 100 = 10000
    ∧ (mkPortfolio 0 100000 defaultTaxConfig).cash
        < 10 * 10000 + defaultTaxConfig.buyTax 10 10000
    ∧ pyInt ((mkPortfolio 0 100000 defaultTaxConfig).cash
        / (10 * (1 + defaultTaxConfig.buyCommission + defaultTaxConfig.buyTransferFee)) / 100) * 100 = 9900
    ∧ (((mkPortfolio 0 100000 defaultTaxConfig).buy 1 10 100).toOption.map
        (fun r => r.2.2.transactions.getLast?.map (fun t => t.shares)) = some (some 9900))
    ∧ (((mkPortfolio 0 100000 defaultTaxConfig).buy 1 10 100).toOption.map
        (fun r => r.2.2.transactions.getLast?.map (fun t => t.cost)) = some (some (some 99000)))
    ∧ (((mkPortfolio 0 100000 defaultTaxConfig).buy 1 10 100).toOption.map
        (fun r => r.2.2.transactions.getLast?.map (fun t => t.tax)) = some (some (792/25)))
    ∧ (((mkPortfolio 0 100000 defaultTaxConfig).buy 1 10 100).toOption.map
        (fun r => r.2.2.transactions.getLast?.map (fun t => t.totalCost)) = some (some (some (2475792/25))))
    ∧ (((mkPortfolio 0 100000 defaultTaxConfig).buy 1 10 100).toOption.map
        (fun r => r.2.2.cash) = some (24208/25)) := by
  refine ⟨?_, ?_, ?_, ?_, ?_, ?_, ?_, ?_⟩ <;> with_unfolding_all rfl

/-- Claim C1 (code bug): with non-negative initial cash 903, the default
(non-negative) fee schedule and price 9 ≥ 0, a single buy succeeds yet
debits 905.018, leaving cash_after = -2.018 < 0 both in the ledger state
and on the appended record: the insufficient-funds recomputation ignores
the minimum-commission floor, so cash_after ≥ 0 fails. -/
theorem c1_min_commission_breaks_cash_invariant :
    (((mkPortfolio 0 903 defaultTaxConfig).buy 1 9 100).toOption.map
      (fun r => (r.1, r.2.2.cash)) = some (true, -1009/500))
    ∧ (((mkPortfolio 0 903 defaultTaxConfig).buy 1 9 100).toOption.map
      (fun r => r.2.2.transactions.getLast?.map (fun t => t.cash)) = some (some (-1009/500)))
    ∧ (-1009/500 : ℚ) < 0 := by
  refine ⟨?_, ?_, by norm_num⟩ <;> with_unfolding_all rfl

/-- Claim C3, counterexample: on the fresh portfolio with cash 100000 at
price 10, the establishing sizing yields max_shares = 10000 > 0 and yet
cost + tax = 100032 exceeds cash, and the insufficient-funds
recomputation actually fires (the appended record holds 9900 shares,
not 10000) — refuting that the total > cash branch is reachable only on
non-initial buys. -/
theorem c3_counterexample_initial_buy_reaches_shrink :
    pyInt ((mkPortfolio 0 100000 defaultTaxConfig).cash / 10 / 100) * 100 = 10000
    ∧ (0 : ℤ) < 10000
    ∧ (mkPortfolio 0 100000 defaultTaxConfig).cash
        < 10 * 10000 + (mkPortfolio 0 100000 defaultTaxConfig).taxConfig.buyTax 10 10000
    ∧ (((mkPortfolio 0 100000 defaultTaxConfig).buy 1 10 100).toOption.map
        (fun r => r.2.2.transactions.getLast?.map (fun t => t.shares)) = some (some 9900)) := by
  refine ⟨?_, by norm_num, ?_, ?_⟩ <;> with_unfolding_all rfl

/-- Claim C3, amended: the establishing sizing fits the pre-tax cost
within cash (price * max_shares ≤ cash for price > 0, cash ≥ 0); the
total including tax can still exceed cash, so the insufficient-funds
recomputation branch is reachable on establishing buys as well. -/
theorem c3_amended_initial_cost_fits_cash (p : Portfolio) (price : ℚ)
    (hp : 0 < price) (hc : 0 ≤ p.cash) :
    ((pyInt (p.cash / price / 100) * 100 : ℤ) : ℚ) * price ≤ p.cash := by
  have hx : (0 : ℚ) ≤ p.cash / price / 100 := by positivity
  have hfloor : pyInt (p.cash / price / 100) = ⌊p.cash / price / 100⌋ := by
    unfold pyInt
    exact if_pos hx
  have h2 : ((⌊p.cash / price / 100⌋ : ℤ) : ℚ) ≤ p.cash / price / 100 := Int.floor_le _
  have h3 : ((pyInt (p.cash / price / 100) * 100 : ℤ) : ℚ)
      = ((⌊p.cash / price / 100⌋ : ℤ) : ℚ) * 100 := by
    rw [hfloor]
    push_cast
    ring
  rw [h3]
  calc ((⌊p.cash / price / 100⌋ : ℤ) : ℚ) * 100 * price
      ≤ p.cash / price / 100 * 100 * price :=
        mul_le_mul_of_nonneg_right (mul_le_mul_of_nonneg_right h2 (by norm_num)) hp.le
    _ = p.cash := by
        field_simp
        ring

/-- Witness for the amended C3 theorem at cash 100000, price 10. -/
theorem c3_amended_initial_cost_fits_cash_witness :
    (0 : ℚ) < 10 ∧ (0 : ℚ) ≤ (mkPortfolio 0 100000 defaultTaxConfig).cash
    ∧ ((pyInt ((mkPortfolio 0 100000 defaultTaxConfig).cash / 10 / 100) * 100 : ℤ) : ℚ) * 10
        ≤ (mkPortfolio 0 100000 defaultTaxConfig).cash :=
  ⟨by norm_num, by norm_num [mkPortfolio],
    c3_amended_initial_cost_fits_cash (mkPortfolio 0 100000 defaultTaxConfig) 10
      (by norm_num) (by norm_num [mkPortfolio])⟩

/-- Claim C4: on the Scenario D log (buy 100@10, buy 100@12, sell
150@15), the FIFO matcher realizes 650 for the sell (500 from the first
lot, 150 from 50 shares of the second), leaves the second lot with 50
shares at price 12, and the statistics reducer reports
max_profit_in_single_trade = 650. -/
theorem c4_fifo_matching_scenario_d :
    tradeProfits fifoScenarioLog = (650, 0, [{ price := 12, shares := 50 }])
    ∧ (fifoScenarioPortfolio.getStatistics).toOption.map
        (fun s => s.maxProfitSingleTrade) = some 650 := by
  refine ⟨?_, ?_⟩ <;> with_unfolding_all rfl

/-- Claim C5, counterexample: the establishing buy on a portfolio with
cash 1000 at price 10 sizes a positive lot (100 shares), clears the
`initial_buy` flag, then fails in the insufficient-funds recomputation
(the lot-aligned affordable count is 0) — returning a failure result
while leaving the ledger state changed: the flag was mutated. -/
theorem c5_counterexample_failed_buy_mutates_state :
    ((mkPortfolio 0 1000 defaultTaxConfig).buy 1 10 100
        = Except.ok (false, "资金不足，无法买入",
            { mkPortfolio 0 1000 defaultTaxConfig with initialBuy := false }))
    ∧ ({ mkPortfolio 0 1000 defaultTaxConfig with initialBuy := false } : Portfolio)
        ≠ mkPortfolio 0 1000 defaultTaxConfig := by
  refine ⟨by with_unfolding_all rfl, fun h => ?_⟩
  exact absurd (congrArg Portfolio.initialBuy h) (by with_unfolding_all decide)

/-- Claim C5, amended: a buy or sell call that returns a failure result
leaves cash, position, the transaction log and all cumulative totals at
their prior values (though a failed establishing buy may still clear the
initial-buy flag), and a call that returns success appends exactly one
record to the transaction log. -/
theorem c5_amended_failure_keeps_ledger_success_appends_one
    (p pf pt : Portfolio) (d : ℤ) (price s : ℚ) (mf mt : String) :
    (p.buy d price s = Except.ok (false, mf, pf) →
        pf.cash = p.cash ∧ pf.position = p.position
        ∧ pf.transactions = p.transactions
        ∧ pf.totalInvestment = p.totalInvestment
        ∧ pf.totalBuyCost = p.totalBuyCost
        ∧ pf.totalBuyTax = p.totalBuyTax
        ∧ pf.totalSellIncome = p.totalSellIncome
        ∧ pf.totalSellTax = p.totalSellTax)
    ∧ (p.buy d price s = Except.ok (true, mt, pt) →
        pt.transactions.length = p.transactions.length + 1)
    ∧ ((p.sell d price s).1 = false → (p.sell d price s).2.2 = p)
    ∧ ((p.sell d price s).1 = true →
        (p.sell d price s).2.2.transactions.length = p.transactions.length + 1) := by
  refine ⟨?_, ?_, ?_, ?_⟩
  · intro h
    simp only [Portfolio.buy, Portfolio.buyExec, Portfolio.buyCommit] at h
    split_ifs at h <;>
      (simp only [Except.ok.injEq, Prod.mk.injEq] at h
       obtain ⟨hb, -, hpf⟩ := h
       first
         | exact Bool.noConfusion hb
         | (cases hpf; exact ⟨rfl, rfl, rfl, rfl, rfl, rfl, rfl, rfl⟩))
  · intro h
    simp only [Portfolio.buy, Portfolio.buyExec, Portfolio.buyCommit] at h
    split_ifs at h <;>
      (simp only [Except.ok.injEq, Prod.mk.injEq] at h
       obtain ⟨hb, -, hpt⟩ := h
       first
         | exact Bool.noConfusion hb
         | (cases hpt; simp [List.length_append]))
  · intro h
    simp only [Portfolio.sell] at h ⊢
    split_ifs at h ⊢ <;> simp_all
  · intro h
    simp only [Portfolio.sell] at h ⊢
    split_ifs at h ⊢ <;> simp_all [List.length_append]

/-- Witness for the amended C5 theorem: the failing buy of the C5
counterexample leaves every enumerated ledger component unchanged. -/
theorem c5_amended_failure_keeps_ledger_witness :
    ((mkPortfolio 0 1000 defaultTaxConfig).buy 1 10 100
        = Except.ok (false, "资金不足，无法买入",
            { mkPortfolio 0 1000 defaultTaxConfig with initialBuy := false }))
    ∧ (({ mkPortfolio 0 1000 defaultTaxConfig with initialBuy := false } : Portfolio).cash
          = (mkPortfolio 0 1000 defaultTaxConfig).cash
      ∧ ({ mkPortfolio 0 1000 defaultTaxConfig with initialBuy := false } : Portfolio).position
          = (mkPortfolio 0 1000 defaultTaxConfig).position
      ∧ ({ mkPortfolio 0 1000 defaultTaxConfig with initialBuy := false } : Portfolio).transactions
          = (mkPortfolio 0 1000 defaultTaxConfig).transactions
      ∧ ({ mkPortfolio 0 1000 defaultTaxConfig with initialBuy := false } : Portfolio).totalInvestment
          = (mkPortfolio 0 1000 defaultTaxConfig).totalInvestment
      ∧ ({ mkPortfolio 0 1000 defaultTaxConfig with initialBuy := false } : Portfolio).totalBuyCost
          = (mkPortfolio 0 1000 defaultTaxConfig).totalBuyCost
      ∧ ({ mkPortfolio 0 1000 defaultTaxConfig with initialBuy := false } : Portfolio).totalBuyTax
          = (mkPortfolio 0 1000 defaultTaxConfig).totalBuyTax
      ∧ ({ mkPortfolio 0 1000 defaultTaxConfig with initialBuy := false } : Portfolio).totalSellIncome
          = (mkPortfolio 0 1000 defaultTaxConfig).totalSellIncome
      ∧ ({ mkPortfolio 0 1000 defaultTaxConfig with initialBuy := false } : Portfolio).totalSellTax
          = (mkPortfolio 0 1000 defaultTaxConfig).totalSellTax) := by
  have hb : (mkPortfolio 0 1000 defaultTaxConfig).buy 1 10 100
      = Except.ok (false, "资金不足，无法买入",
          { mkPortfolio 0 1000 defaultTaxConfig with initialBuy := false }) := by
    with_unfolding_all rfl
  exact ⟨hb,
    (c5_amended_failure_keeps_ledger_success_appends_one
      (mkPortfolio 0 1000 defaultTaxConfig)
      { mkPortfolio 0 1000 defaultTaxConfig with initialBuy := false }
      (mkPortfolio 0 1000 defaultTaxConfig) 1 10 100
      "资金不足，无法买入" "").1 hb⟩

/-- Claim C6, counterexample: a direct buy call at price 0 on a fresh
ledger raises ZeroDivisionError at `int(self.cash / price / 100)`
(trading_system.py line 93) instead of returning a failure result. -/
theorem c6_counterexample_price_zero_raises :
    (mkPortfolio 0 1000 defaultTaxConfig).buy 1 0 100
      = Except.error "ZeroDivisionError" := by
  with_unfolding_all rfl

/-- Claim C6, amended: with non-negative buy-side fee rates, buy returns
normally (a success/failure result, no exception) for every non-zero
price, any date, any shares and any ledger state; sell and update are
total functions of the state by construction (they contain no division
by a caller-controlled quantity), and buy at price 0 raises
ZeroDivisionError when it reaches one of its divisions. -/
theorem c6_amended_buy_returns_for_nonzero_price (p : Portfolio) (d : ℤ)
    (price s : ℚ) (hp : price ≠ 0)
    (hc : 0 ≤ p.taxConfig.buyCommission) (ht : 0 ≤ p.taxConfig.buyTransferFee) :
    (p.buy d price s).toOption.isSome = true := by
  have hprod : price * (1 + p.taxConfig.buyCommission + p.taxConfig.buyTransferFee) ≠ 0 :=
    mul_ne_zero hp (by positivity)
  simp only [Portfolio.buy, Portfolio.buyExec, Portfolio.buyCommit]
  split_ifs <;> simp_all [Except.toOption]

/-- Witness for the amended C6 theorem at price 10 on a fresh ledger. -/
theorem c6_amended_buy_returns_witness :
    ((10 : ℚ) ≠ 0)
    ∧ (0 ≤ (mkPortfolio 0 1000 defaultTaxConfig).taxConfig.buyCommission)
    ∧ (0 ≤ (mkPortfolio 0 1000 defaultTaxConfig).taxConfig.buyTransferFee)
    ∧ ((mkPortfolio 0 1000 defaultTaxConfig).buy 1 10 100).toOption.isSome = true :=
  ⟨by norm_num, by norm_num [mkPortfolio, defaultTaxConfig],
    by norm_num [mkPortfolio, defaultTaxConfig],
    c6_amended_buy_returns_for_nonzero_price (mkPortfolio 0 1000 defaultTaxConfig)
      1 10 100 (by norm_num)
      (by norm_num [mkPortfolio, defaultTaxConfig])
      (by norm_num [mkPortfolio, defaultTaxConfig])⟩

/-- Claim C7 (code bug): on a series whose every close is missing, the
first-valid-bar search leaves index 0, and the establishing buy is
invoked with the NaN close — `int(nan)` raises ValueError, so
run_backtest raises rather than completing; at that point the ledger
still holds only the synthetic init record. -/
theorem c7_all_nan_series_raises :
    ((mkTradingSystem 0 (Strat.maCross 5 20 100) 100000 defaultTaxConfig).runBacktest allNaNFrame
      = Except.error "ValueError")
    ∧ (mkTradingSystem 0 (Strat.maCross 5 20 100) 100000 defaultTaxConfig).portfolio.transactions
      = [Txn.mkInit 0 100000] :=
  ⟨by with_unfolding_all rfl, rfl⟩

/-- Claim C8, counterexample: two runs over the same one-bar series with
the same strategy, cash and fees, but constructed at wall-clock dates 0
and 1, produce different transaction logs — the synthetic init record
carries `datetime.now().date()`, which is not part of the inputs. -/
theorem c8_counterexample_clock_dependent_init_record :
    ((mkTradingSystem 0 (Strat.maCross 5 20 100) 100000 defaultTaxConfig).runBacktest oneBarFrame
      ≠ (mkTradingSystem 1 (Strat.maCross 5 20 100) 100000 defaultTaxConfig).runBacktest oneBarFrame)
    ∧ (((mkTradingSystem 0 (Strat.maCross 5 20 100) 100000 defaultTaxConfig).runBacktest
          oneBarFrame).toOption.map (fun r => (r.2.headD (Txn.mkInit 99 0)).date) = some 0)
    ∧ (((mkTradingSystem 1 (Strat.maCross 5 20 100) 100000 defaultTaxConfig).runBacktest
          oneBarFrame).toOption.map (fun r => (r.2.headD (Txn.mkInit 99 0)).date) = some 1) := by
  have h0 : ((mkTradingSystem 0 (Strat.maCross 5 20 100) 100000 defaultTaxConfig).runBacktest
      oneBarFrame).toOption.map (fun r => (r.2.headD (Txn.mkInit 99 0)).date) = some 0 := by
    with_unfolding_all rfl
  have h1 : ((mkTradingSystem 1 (Strat.maCross 5 20 100) 100000 defaultTaxConfig).runBacktest
      oneBarFrame).toOption.map (fun r => (r.2.headD (Txn.mkInit 99 0)).date) = some 1 := by
    with_unfolding_all rfl
  refine ⟨fun h => ?_, h0, h1⟩
  rw [congrArg (fun x => x.toOption.map (fun r => (r.2.headD (Txn.mkInit 99 0)).date)) h] at h0
  rw [h1] at h0
  exact absurd h0 (by decide)

/-- Claim C8, amended: given identical inputs and an identical
construction wall-clock date, two executions of run_backtest yield
identical transaction logs and identical statistics (the replay is a
pure function of series, strategy, cash, fee schedule and clock). -/
theorem c8_amended_deterministic_given_clock (today : ℤ) (st : Strat) (cash : ℚ)
    (cfg : TaxConfig) (d : DataF) :
    (mkTradingSystem today st cash cfg).runBacktest d
      = (mkTradingSystem today st cash cfg).runBacktest d
    ∧ ((mkTradingSystem today st cash cfg).runBacktest d).toOption.map
        (fun r => r.1.getStatistics)
      = ((mkTradingSystem today st cash cfg).runBacktest d).toOption.map
        (fun r => r.1.getStatistics) :=
  ⟨rfl, rfl⟩

/-- Claim C9, counterexample: generate_signals does not leave the input
series unchanged — the MA-cross strategy writes the short_ma/long_ma
columns into the frame in place, and the momentum strategy writes the
momentum column. -/
theorem c9_counterexample_signals_mutate_frame :
    ((maCrossSignals 5 20 100 oneBarFrame).2 ≠ oneBarFrame)
    ∧ ((momentumSignals 10 (1/20) 100 oneBarFrame).2 ≠ oneBarFrame) := by
  constructor
  · intro h
    exact absurd (congrArg (fun x => x.shortMa.isSome) h) (by with_unfolding_all decide)
  · intro h
    exact absurd (congrArg (fun x => x.momentum.isSome) h) (by with_unfolding_all decide)

/-- Claim C9, amended: generate_signals preserves the date and close
columns of the input series for every series and all parameters pandas
accepts (rolling windows ≥ 1); each strategy touches only its own
indicator columns — MA-cross writes short_ma/long_ma and leaves
momentum alone, momentum writes momentum and leaves short_ma/long_ma
alone. -/
theorem c9_amended_signals_preserve_price_columns (sw lw mw : ℕ) (th bs bs2 : ℚ)
    (d : DataF) (hsw : 1 ≤ sw) (hlw : 1 ≤ lw) :
    ((maCrossSignals sw lw bs d).2.date = d.date
      ∧ (maCrossSignals sw lw bs d).2.close = d.close
      ∧ (maCrossSignals sw lw bs d).2.momentum = d.momentum)
    ∧ ((momentumSignals mw th bs2 d).2.date = d.date
      ∧ (momentumSignals mw th bs2 d).2.close = d.close
      ∧ (momentumSignals mw th bs2 d).2.shortMa = d.shortMa
      ∧ (momentumSignals mw th bs2 d).2.longMa = d.longMa) :=
  ⟨⟨rfl, rfl, rfl⟩, rfl, rfl, rfl, rfl⟩

/-- Witness for the amended C9 theorem at the default parameters on a
one-bar frame. -/
theorem c9_amended_signals_preserve_witness :
    (1 ≤ 5) ∧ (1 ≤ 20)
    ∧ (((maCrossSignals 5 20 100 oneBarFrame).2.date = oneBarFrame.date
        ∧ (maCrossSignals 5 20 100 oneBarFrame).2.close = oneBarFrame.close
        ∧ (maCrossSignals 5 20 100 oneBarFrame).2.momentum = oneBarFrame.momentum)
      ∧ ((momentumSignals 10 (1/20) 100 oneBarFrame).2.date = oneBarFrame.date
        ∧ (momentumSignals 10 (1/20) 100 oneBarFrame).2.close = oneBarFrame.close
        ∧ (momentumSignals 10 (1/20) 100 oneBarFrame).2.shortMa = oneBarFrame.shortMa
        ∧ (momentumSignals 10 (1/20) 100 oneBarFrame).2.longMa = oneBarFrame.longMa)) :=
  ⟨by norm_num, by norm_num,
    c9_amended_signals_preserve_price_columns 5 20 10 (1/20) 100 100 oneBarFrame
      (by norm_num) (by norm_num)⟩

/-- Every successful return of the post-establishment part of buy leaves
the initial-buy flag as it found it (the flag is written only in the
establishing branch). -/
theorem buyExec_ok_keeps_flag (q : Portfolio) (d : ℤ) (price shares : ℚ)
    (b : Bool) (m : String) (p2 : Portfolio)
    (h : q.buyExec d price shares = Except.ok (b, m, p2)) :
    p2.initialBuy = q.initialBuy := by
  simp only [Portfolio.buyExec, Portfolio.buyCommit] at h
  split_ifs at h <;>
    (simp only [Except.ok.injEq, Prod.mk.injEq] at h
     obtain ⟨-, -, hp2⟩ := h
     cases hp2
     rfl)

/-- Claim C10: on an establishing buy (flag still set) at a non-zero
price, any returned result has the flag cleared exactly when the
sizing `int(cash / price / 100) * 100` is positive; when that sizing is
non-positive the call fails with the insufficient-initial-capital
message and returns the state unchanged, and the requested shares
argument is ignored entirely — two establishing calls differing only in
requested shares are identical. -/
theorem c10_establishment_flag_semantics (p : Portfolio) (d : ℤ)
    (price s s1 s2 : ℚ) (hinit : p.initialBuy = true) (hp : price ≠ 0) :
    (∀ b m p2, p.buy d price s = Except.ok (b, m, p2) →
        (p2.initialBuy = false ↔ 0 < pyInt (p.cash / price / 100) * 100))
    ∧ (pyInt (p.cash / price / 100) * 100 ≤ 0 →
        p.buy d price s = Except.ok (false, "初始资金不足，无法建仓", p))
    ∧ p.buy d price s1 = p.buy d price s2 := by
  refine ⟨?_, ?_, ?_⟩
  · intro b m p2 h
    simp only [Portfolio.buy, hinit, eq_self_iff_true, if_true] at h
    split_ifs at h <;>
      first
        | exact Except.noConfusion h
        | (have hflag := buyExec_ok_keeps_flag _ d price _ b m p2 h
           simp at hflag
           simp_all)
        | (simp only [Except.ok.injEq, Prod.mk.injEq] at h
           obtain ⟨-, -, hp2⟩ := h
           cases hp2
           simp_all)
  · intro hle
    have hms : ¬ 0 < pyInt (p.cash / price / 100) * 100 := not_lt.mpr hle
    simp only [Portfolio.buy, hinit, eq_self_iff_true, if_true]
    split_ifs <;>
      first
        | rfl
        | (exact absurd (by assumption : price = 0) hp)
        | (exact absurd (by assumption : 0 < pyInt (p.cash / price / 100) * 100) hms)
  · simp only [Portfolio.buy, hinit, eq_self_iff_true, if_true]

/-- Witness for C10 at cash 50, price 10 (the establishing sizing is 0,
so the call fails, keeps the flag, and ignores requested shares). -/
theorem c10_establishment_flag_semantics_witness :
    ((mkPortfolio 0 50 defaultTaxConfig).initialBuy = true)
    ∧ ((10 : ℚ) ≠ 0)
    ∧ (pyInt ((mkPortfolio 0 50 defaultTaxConfig).cash / 10 / 100) * 100 ≤ 0)
    ∧ ((mkPortfolio 0 50 defaultTaxConfig).buy 1 10 100
        = Except.ok (false, "初始资金不足，无法建仓", mkPortfolio 0 50 defaultTaxConfig))
    ∧ (mkPortfolio 0 50 defaultTaxConfig).buy 1 10 200
        = (mkPortfolio 0 50 defaultTaxConfig).buy 1 10 300 := by
  refine ⟨rfl, by norm_num, by with_unfolding_all decide, ?_, ?_⟩
  · exact (c10_establishment_flag_semantics (mkPortfolio 0 50 defaultTaxConfig)
      1 10 100 200 300 rfl (by norm_num)).2.1 (by with_unfolding_all decide)
  · exact (c10_establishment_flag_semantics (mkPortfolio 0 50 defaultTaxConfig)
      1 10 100 200 300 rfl (by norm_num)).2.2
